import Mathlib

/-!
Shallow embedding of the odido-bundle-booster core (src/app) for verification.

Python floats are modelled as rationals (`ℚ`); all arithmetic the claims
exercise is exact at the magnitudes involved.  Wall-clock reads
(`time.time()`, `datetime.now()`) are passed in explicitly as a `now`
parameter.  Python truthiness of optional timestamps (`None` and `0.0`
are falsy) is modelled by `tsTruthy`.  Log lines are modelled as an
inductive type with one constructor per distinct message the embedded
code can emit.
-/

namespace Odido

/-- Mirror of `AppConfig` (src/app/config.py).  String-valued credential
fields are omitted: no claim touches them. -/
structure AppConfig where
  bundle_size_mb : ℚ := 1024
  absolute_min_threshold_mb : ℚ := 100
  estimator_window_minutes : ℤ := 60
  estimator_max_events : ℤ := 24
  min_check_interval_minutes : ℤ := 1
  max_check_interval_minutes : ℤ := 60
  lead_time_minutes : ℤ := 30
  auto_renew_enabled : Bool := true
  default_bundle_valid_hours : ℤ := 24 * 30
  deriving Repr, DecidableEq

/-- Mirror of `BundleState` (src/app/config.py). -/
structure BundleState where
  remaining_mb : ℚ := 0
  used_today_mb : ℚ := 0
  total_used_mb : ℚ := 0
  expiry_ts : Option ℚ := none
  next_check_ts : Option ℚ := none
  next_reset_ts : Option ℚ := none
  estimated_depletion_ts : Option ℚ := none
  last_check_ts : Option ℚ := none
  deriving Repr, DecidableEq

/-- Python truthiness of an optional float timestamp: `None` and `0.0`
are falsy (`if not self.state.expiry_ts`, `if self.state.next_reset_ts`). -/
def tsTruthy : Option ℚ → Bool
  | none => false
  | some x => x != 0

/-- An idempotency-ledger key (src/app/storage.py `idempotency.key`).
`given s` is a caller-supplied key; `derived sec amount` is the
fallback key `f"manual-{int(time.time())}-{amount}"` built from the
whole-second clock reading and the credited amount. -/
inductive IdemKey where
  | given (s : String)
  | derived (sec : ℤ) (amount : ℚ)
  deriving Repr, DecidableEq

/-- One log line, by message identity (src/app `_log` call sites). -/
inductive LogMsg where
  | serviceInitialized
  | configurationUpdated
  | dailyUsageReset
  | usageRecorded (amount : ℚ)
  | idempotentAddIgnored (key : IdemKey)
  | bundleAddedManually (amount : ℚ)
  | apiNotConfigured
  | bundlePurchased
  | purchaseUnexpectedResult
  | apiAuthFailed
  | apiError
  | unexpectedRenewalError
  | allRenewalAttemptsFailed
  | checkCompleted
  | syncedRemaining (amount : ℚ)
  deriving Repr, DecidableEq

/-- The service-visible store/state bundle: the in-memory `BundleState`,
the idempotency ledger, the usage-event table (newest first, as
`recent_usage` returns it), and the append-only log (chronological). -/
structure ServiceState where
  state : BundleState
  idempotency : List IdemKey := []
  usage_events : List (ℚ × ℚ) := []
  logs : List LogMsg := []
  deriving Repr, DecidableEq

/-- A config patch (the recognized fields of `AppConfig.update_from_dict`,
src/app/config.py): for each recognized field, `some v` when the incoming
dict carries that key.  Unrecognized keys are dropped before this point;
string-valued credential fields are omitted like in `AppConfig`. -/
structure ConfigPatch where
  bundle_size_mb : Option ℚ := none
  absolute_min_threshold_mb : Option ℚ := none
  estimator_window_minutes : Option ℤ := none
  estimator_max_events : Option ℤ := none
  min_check_interval_minutes : Option ℤ := none
  max_check_interval_minutes : Option ℤ := none
  lead_time_minutes : Option ℤ := none
  auto_renew_enabled : Option Bool := none
  default_bundle_valid_hours : Option ℤ := none
  deriving Repr, DecidableEq

/-- Mirror of `AppConfig.update_from_dict`: each recognized field is
type-coerced and assigned.  No range check relates
`min_check_interval_minutes` and `max_check_interval_minutes`. -/
def update_from_dict (c : AppConfig) (p : ConfigPatch) : AppConfig :=
  { bundle_size_mb := p.bundle_size_mb.getD c.bundle_size_mb,
    absolute_min_threshold_mb :=
      p.absolute_min_threshold_mb.getD c.absolute_min_threshold_mb,
    estimator_window_minutes :=
      p.estimator_window_minutes.getD c.estimator_window_minutes,
    estimator_max_events := p.estimator_max_events.getD c.estimator_max_events,
    min_check_interval_minutes :=
      p.min_check_interval_minutes.getD c.min_check_interval_minutes,
    max_check_interval_minutes :=
      p.max_check_interval_minutes.getD c.max_check_interval_minutes,
    lead_time_minutes := p.lead_time_minutes.getD c.lead_time_minutes,
    auto_renew_enabled := p.auto_renew_enabled.getD c.auto_renew_enabled,
    default_bundle_valid_hours :=
      p.default_bundle_valid_hours.getD c.default_bundle_valid_hours }

/-! ## Rate estimator (src/app/estimator.py) -/

/-- Mirror of `ConsumptionEstimator.__init__`. -/
structure ConsumptionEstimator where
  window_minutes : ℤ := 60
  max_events : ℤ := 24
  deriving Repr, DecidableEq

/-- The accumulation loop of `rate_mb_per_minute`: walk the events,
skip those with `now - ts > window_seconds`, otherwise add the amount,
track the earliest timestamp and stop once `max_events` samples have
been taken.  Returns the final `(total, earliest)`. -/
def rateLoop (now window_seconds : ℚ) (max_events : ℤ) :
    List (ℚ × ℚ) → ℚ → Option ℚ → ℤ → ℚ × Option ℚ
  | [], total, earliest, _ => (total, earliest)
  | (ts, amount) :: rest, total, earliest, count =>
    if now - ts > window_seconds then
      rateLoop now window_seconds max_events rest total earliest count
    else
      let total' := total + amount
      let earliest' : Option ℚ := some (match earliest with
        | none => ts
        | some e => min e ts)
      let count' := count + 1
      if count' ≥ max_events then (total', earliest')
      else rateLoop now window_seconds max_events rest total' earliest' count'

/-- Mirror of `ConsumptionEstimator.rate_mb_per_minute`; `1e-6` is the
division-guard epsilon. -/
def rate_mb_per_minute (est : ConsumptionEstimator) (now : ℚ)
    (usage_events : List (ℚ × ℚ)) : ℚ :=
  let window_seconds : ℚ := est.window_minutes * 60
  let r := rateLoop now window_seconds est.max_events usage_events 0 none 0
  match r.2 with
  | none => 0
  | some earliest =>
    if r.1 ≤ 0 then 0
    else r.1 / max ((now - earliest) / 60) (1 / 1000000)

/-! ## Decision functions (src/app/service.py) -/

/-- Mirror of `BundleService.estimated_time_to_depletion_minutes`. -/
def estimated_time_to_depletion_minutes (st : BundleState) (rate : ℚ) :
    Option ℚ :=
  if rate ≤ 0 then none else some (st.remaining_mb / rate)

/-- Mirror of `BundleService.compute_next_check_minutes`: `max` with the
minimum first, then `min` with the maximum, exactly as in the source. -/
def compute_next_check_minutes (config : AppConfig) (st : BundleState)
    (rate : ℚ) : ℚ :=
  if rate ≤ 0 then (config.max_check_interval_minutes : ℚ)
  else
    match estimated_time_to_depletion_minutes st rate with
    | none => (config.max_check_interval_minutes : ℚ)
    | some eta =>
      let interval := eta / 4
      let interval := max (config.min_check_interval_minutes : ℚ) interval
      let interval := min (config.max_check_interval_minutes : ℚ) interval
      interval

/-- Mirror of `BundleService.should_auto_renew`. -/
def should_auto_renew (config : AppConfig) (st : BundleState) (rate : ℚ) :
    Bool :=
  if !config.auto_renew_enabled then false
  else
    let eta := estimated_time_to_depletion_minutes st rate
    if st.remaining_mb ≤ config.absolute_min_threshold_mb then true
    else
      match eta with
      | some e => decide (e ≤ (config.lead_time_minutes : ℚ))
      | none => false

/-! ## Daily reset (src/app/service.py) -/

/-- Mirror of `BundleService._next_midnight_ts`: the next local-midnight
epoch timestamp strictly after `now`.  Local days are modelled as fixed
86400-second blocks aligned at epoch (the timezone offset and DST of
`datetime` are elided; every midnight is a multiple of 86400). -/
def next_midnight_ts (now : ℚ) : ℚ := (⌊now / 86400⌋ + 1) * 86400

/-- Mirror of `BundleService._apply_daily_reset_if_needed`: the guard. -/
def dailyResetFires (now : ℚ) (st : BundleState) : Bool :=
  tsTruthy st.next_reset_ts &&
    match st.next_reset_ts with
    | none => false
    | some r => decide (now ≥ r)

/-- Mirror of `BundleService._apply_daily_reset_if_needed`: the state
effect (zero `used_today_mb`, advance `next_reset_ts`). -/
def applyDailyReset (now : ℚ) (st : BundleState) : BundleState :=
  if dailyResetFires now st then
    { st with used_today_mb := 0, next_reset_ts := some (next_midnight_ts now) }
  else st

/-- Log lines appended by `_apply_daily_reset_if_needed`. -/
def dailyResetLogs (now : ℚ) (st : BundleState) : List LogMsg :=
  if dailyResetFires now st then [.dailyUsageReset] else []

/-! ## Usage and manual top-up (src/app/service.py) -/

/-- Mirror of `BundleService.simulate_usage`.  `ts or time.time()`:
a supplied timestamp of `0.0` is falsy and replaced by `now`. -/
def simulate_usage (now : ℚ) (svc : ServiceState) (amount_mb : ℚ)
    (ts : Option ℚ) : ServiceState :=
  let ts := match ts with
    | some t => if t = 0 then now else t
    | none => now
  let st := applyDailyReset now svc.state
  let resetLogs := dailyResetLogs now svc.state
  let st := { st with
    used_today_mb := st.used_today_mb + amount_mb,
    total_used_mb := st.total_used_mb + amount_mb,
    remaining_mb := max (st.remaining_mb - amount_mb) 0 }
  { svc with
    state := st,
    usage_events := (ts, amount_mb) :: svc.usage_events,
    logs := svc.logs ++ resetLogs ++ [.usageRecorded amount_mb] }

/-- Mirror of `BundleService._add_bundle`: credit `remaining_mb`; set
`expiry_ts` to `now + default_bundle_valid_hours` only when it is unset
(falsy). -/
def addBundle (config : AppConfig) (now : ℚ) (st : BundleState)
    (amount : ℚ) : BundleState :=
  let st := { st with remaining_mb := st.remaining_mb + amount }
  if tsTruthy st.expiry_ts then st
  else { st with expiry_ts := some (now + config.default_bundle_valid_hours * 3600) }

/-- Key resolution in `manual_add_bundle`:
`key = idempotency_key or f"manual-{int(time.time())}-{amount}"`.
An omitted or empty (falsy) caller key falls back to the derived key;
`int(time.time())` truncates the positive clock to whole seconds,
modelled as the floor. -/
def resolveKey (now : ℚ) (amount : ℚ) : Option String → IdemKey
  | some s => if s.isEmpty then .derived ⌊now⌋ amount else .given s
  | none => .derived ⌊now⌋ amount

/-- Mirror of `Storage.has_idempotency`. -/
def has_idempotency (ledger : List IdemKey) (key : IdemKey) : Bool :=
  ledger.contains key

/-- Mirror of `Storage.register_idempotency` (`INSERT OR IGNORE`). -/
def register_idempotency (ledger : List IdemKey) (key : IdemKey) :
    List IdemKey :=
  if ledger.contains key then ledger else key :: ledger

/-- Mirror of `BundleService.manual_add_bundle`: resolve the amount
(configured bundle size when omitted) and the key; a registered key is
ignored with a log line and the state returned unchanged; otherwise the
key is registered and the bundle credited. -/
def manual_add_bundle (config : AppConfig) (now : ℚ) (svc : ServiceState)
    (amount_mb : Option ℚ) (idempotency_key : Option String) : ServiceState :=
  let amount := amount_mb.getD config.bundle_size_mb
  let key := resolveKey now amount idempotency_key
  if has_idempotency svc.idempotency key then
    { svc with logs := svc.logs ++ [.idempotentAddIgnored key] }
  else
    { svc with
      idempotency := register_idempotency svc.idempotency key,
      state := addBundle config now svc.state amount,
      logs := svc.logs ++ [.bundleAddedManually amount] }

/-! ## Renewal with retry (src/app/service.py) -/

/-- Outcome of one provider interaction inside `_renew_with_real_api`:
not configured, a successful purchase, a non-success result dict, or
one of the three caught exception classes. -/
inductive AttemptOutcome where
  | notConfigured
  | success
  | unexpectedResult
  | authError
  | apiError
  | unexpectedError
  deriving Repr, DecidableEq

/-- Mirror of `BundleService._renew_with_real_api`: every outcome is
caught inside the method; only a provider-reported success credits the
bundle (via `_add_bundle`) and returns `True`. -/
def renew_with_real_api (config : AppConfig) (now : ℚ) (st : BundleState)
    (outcome : AttemptOutcome) : Bool × BundleState × List LogMsg :=
  match outcome with
  | .notConfigured => (false, st, [.apiNotConfigured])
  | .success =>
    (true, addBundle config now st config.bundle_size_mb, [.bundlePurchased])
  | .unexpectedResult => (false, st, [.purchaseUnexpectedResult])
  | .authError => (false, st, [.apiAuthFailed])
  | .apiError => (false, st, [.apiError])
  | .unexpectedError => (false, st, [.unexpectedRenewalError])

/-- Result of the retry loop: final state, number of provider attempts
performed, the sleep durations (seconds) taken between attempts, and
the appended log lines (chronological). -/
structure RetryResult where
  state : BundleState
  attempts : ℕ
  sleeps : List ℕ
  logs : List LogMsg
  deriving Repr, DecidableEq

/-- `retries = 3` in `_renew_with_retry`. -/
def retries : ℕ := 3

/-- `backoff = 2` in `_renew_with_retry`. -/
def backoff : ℕ := 2

/-- The `for attempt in range(retries)` loop of `_renew_with_retry`,
structurally recursive on the remaining iterations.  `outcomes i` is
the environment's response to the i-th provider attempt.  On success
the loop returns at once; on failure it sleeps `backoff ** attempt`
seconds when attempts remain; after the last failure it logs the
terminal error. -/
def renewLoop (config : AppConfig) (now : ℚ) (outcomes : ℕ → AttemptOutcome) :
    ℕ → ℕ → BundleState → List LogMsg → List ℕ → RetryResult
  | _, 0, st, logs, sleeps =>
    { state := st, attempts := retries, sleeps := sleeps,
      logs := logs ++ [.allRenewalAttemptsFailed] }
  | attempt, remaining + 1, st, logs, sleeps =>
    match renew_with_real_api config now st (outcomes attempt) with
    | (true, st2, alogs) =>
      { state := st2, attempts := attempt + 1, sleeps := sleeps,
        logs := logs ++ alogs }
    | (false, st2, alogs) =>
      renewLoop config now outcomes (attempt + 1) remaining st2 (logs ++ alogs)
        (if attempt < retries - 1 then sleeps ++ [backoff ^ attempt]
          else sleeps)

/-- Mirror of `BundleService._renew_with_retry`. -/
def renew_with_retry (config : AppConfig) (now : ℚ)
    (outcomes : ℕ → AttemptOutcome) (st : BundleState) : RetryResult :=
  renewLoop config now outcomes 0 retries st [] []

/-! ## Check cycle (src/app/service.py) and scheduler resync -/

/-- Result dict of `run_check_cycle` plus the updated service state. -/
structure CycleResult where
  svc : ServiceState
  rate : ℚ
  eta_minutes : Option ℚ
  next_interval_minutes : ℚ
  deriving Repr, DecidableEq

/-- `recent_usage(window_start)`: events with `ts >= since`. -/
def eventsSince (since : ℚ) (events : List (ℚ × ℚ)) : List (ℚ × ℚ) :=
  events.filter fun e => since ≤ e.1

/-- Mirror of `BundleService.run_check_cycle`.  Note two source
subtleties kept here: `compute_next_check_minutes` re-reads the
state's `remaining_mb` after a renewal may have credited it, while
`estimated_depletion_ts` uses the pre-renewal `eta` variable (and
Python truthiness: `eta` of `None` or `0.0` yields `None`). -/
def run_check_cycle (config : AppConfig) (now : ℚ)
    (outcomes : ℕ → AttemptOutcome) (svc : ServiceState) : CycleResult :=
  let st := applyDailyReset now svc.state
  let logs := svc.logs ++ dailyResetLogs now svc.state
  let est : ConsumptionEstimator :=
    { window_minutes := config.estimator_window_minutes,
      max_events := config.estimator_max_events }
  let window_start := now - (config.estimator_window_minutes : ℚ) * 60
  let rate := rate_mb_per_minute est now (eventsSince window_start svc.usage_events)
  let eta := estimated_time_to_depletion_minutes st rate
  let renewed :=
    if should_auto_renew config st rate then
      let r := renew_with_retry config now outcomes st
      (r.state, logs ++ r.logs)
    else (st, logs)
  let st := renewed.1
  let logs := renewed.2
  let next_interval_minutes := compute_next_check_minutes config st rate
  let next_check_ts := now + next_interval_minutes * 60
  let st := { st with
    last_check_ts := some now,
    next_check_ts := some next_check_ts,
    estimated_depletion_ts := match eta with
      | none => none
      | some e => if e = 0 then none else some (now + e * 60) }
  { svc := { svc with state := st, logs := logs ++ [.checkCompleted] },
    rate := rate,
    eta_minutes := eta,
    next_interval_minutes := next_interval_minutes }

/-- The balance-overwrite step of `Scheduler._sync_remaining_from_api`
on a successful provider fetch: `remaining_mb` is replaced by the
provider-reported value, state is persisted and a log appended. -/
def sync_remaining_from_api (svc : ServiceState) (remaining_mb : ℚ) :
    ServiceState :=
  { svc with
    state := { svc.state with remaining_mb := remaining_mb },
    logs := svc.logs ++ [.syncedRemaining remaining_mb] }

/-! ## Scheduler start/stop (src/app/scheduler.py) -/

/-- Observable scheduler control state: whether the loop thread is
alive, whether the `threading.Event` stop signal is set, and how many
loop-body iterations have executed. -/
structure SchedState where
  threadAlive : Bool := false
  stopSet : Bool := false
  cyclesRun : ℕ := 0
  deriving Repr, DecidableEq

/-- Scheduler control events: `start()`, `stop()`, and the loop thread
reaching its `while not self._stop.is_set()` guard. -/
inductive SchedOp where
  | start
  | stop
  | loopIter
  deriving Repr, DecidableEq

/-- One control step.  `start` spawns the loop unless a live thread
exists; `stop` sets the stop event (nothing in the source ever clears
it); a loop iteration runs the body only when the guard sees the stop
signal unset, and exits the thread otherwise. -/
def schedStep : SchedState → SchedOp → SchedState
  | s, .start => if s.threadAlive then s else { s with threadAlive := true }
  | s, .stop => { s with stopSet := true }
  | s, .loopIter =>
    if s.stopSet then { s with threadAlive := false }
    else { s with cyclesRun := s.cyclesRun + 1 }

/-- Run a sequence of control events. -/
def schedSteps (s : SchedState) (ops : List SchedOp) : SchedState :=
  ops.foldl schedStep s

/-! ## Helper lemmas -/

theorem addBundle_remaining_mb (config : AppConfig) (now : ℚ)
    (st : BundleState) (a : ℚ) :
    (addBundle config now st a).remaining_mb = st.remaining_mb + a := by
  unfold addBundle
  dsimp only
  split <;> rfl

theorem applyDailyReset_remaining_mb (now : ℚ) (st : BundleState) :
    (applyDailyReset now st).remaining_mb = st.remaining_mb := by
  unfold applyDailyReset
  split <;> rfl

theorem applyDailyReset_total_used_mb (now : ℚ) (st : BundleState) :
    (applyDailyReset now st).total_used_mb = st.total_used_mb := by
  unfold applyDailyReset
  split <;> rfl

theorem applyDailyReset_expiry_ts (now : ℚ) (st : BundleState) :
    (applyDailyReset now st).expiry_ts = st.expiry_ts := by
  unfold applyDailyReset
  split <;> rfl

/-! ## C2: the renewal hard floor -/

/-- C2: for every configuration with auto-renew enabled and every state
with `remaining_mb ≤ absolute_min_threshold_mb`, `should_auto_renew`
returns `true` for every rate argument (including rate 0, where the ETA
is undefined). -/
theorem should_auto_renew_floor (config : AppConfig) (st : BundleState)
    (rate : ℚ) (henabled : config.auto_renew_enabled = true)
    (hfloor : st.remaining_mb ≤ config.absolute_min_threshold_mb) :
    should_auto_renew config st rate = true := by
  simp [should_auto_renew, henabled, hfloor]

/-- Witness for C2 at the default configuration and zero state with
rate 0 (undefined ETA). -/
theorem should_auto_renew_floor_witness :
    should_auto_renew {} {} 0 = true :=
  should_auto_renew_floor {} {} 0 rfl (by norm_num)

/-! ## C3: the adaptive check interval -/

/-- C3 counterexample: `update_from_dict` performs no validation, so a
patch raising only `min_check_interval_minutes` to 100 (against the
default maximum of 60) is accepted; with rate 1 and 4 MB remaining the
computed interval is 60, which does not lie above the configured
minimum of 100. -/
theorem compute_next_check_minutes_range_counterexample :
    (update_from_dict {} { min_check_interval_minutes := some 100
      }).min_check_interval_minutes = 100 ∧
    (update_from_dict {} { min_check_interval_minutes := some 100
      }).max_check_interval_minutes = 60 ∧
    compute_next_check_minutes
      (update_from_dict {} { min_check_interval_minutes := some 100 })
      { remaining_mb := 4 } 1 = 60 ∧
    ¬ (((update_from_dict {} { min_check_interval_minutes := some 100
        }).min_check_interval_minutes : ℚ) ≤
      compute_next_check_minutes
        (update_from_dict {} { min_check_interval_minutes := some 100 })
        { remaining_mb := 4 } 1) := by
  norm_num [update_from_dict, compute_next_check_minutes,
    estimated_time_to_depletion_minutes]

/-- C3 (amended with the spec's own configuration invariant
`min_check_interval ≤ max_check_interval`, which the code never
validates): under that invariant the computed interval always lies in
`[min_check_interval_minutes, max_check_interval_minutes]`; it equals
the maximum when `rate ≤ 0` (the only case in which the ETA is
undefined), and for positive rate it equals ETA/4 clamped into the
interval. -/
theorem compute_next_check_minutes_range (config : AppConfig)
    (st : BundleState) (rate : ℚ)
    (hminmax : config.min_check_interval_minutes ≤
      config.max_check_interval_minutes) :
    ((config.min_check_interval_minutes : ℚ) ≤
        compute_next_check_minutes config st rate ∧
      compute_next_check_minutes config st rate ≤
        (config.max_check_interval_minutes : ℚ)) ∧
    (rate ≤ 0 →
      compute_next_check_minutes config st rate =
        (config.max_check_interval_minutes : ℚ)) ∧
    (0 < rate →
      compute_next_check_minutes config st rate =
        min ((config.max_check_interval_minutes : ℚ))
          (max ((config.min_check_interval_minutes : ℚ))
            (st.remaining_mb / rate / 4))) := by
  have hq : (config.min_check_interval_minutes : ℚ) ≤
      (config.max_check_interval_minutes : ℚ) := by exact_mod_cast hminmax
  by_cases h : rate ≤ 0
  · have hv : compute_next_check_minutes config st rate =
        (config.max_check_interval_minutes : ℚ) := by
      unfold compute_next_check_minutes
      rw [if_pos h]
    exact ⟨⟨by rw [hv]; exact hq, by rw [hv]⟩, fun _ => hv,
      fun hpos => absurd hpos (not_lt.2 h)⟩
  · have hv : compute_next_check_minutes config st rate =
        min ((config.max_check_interval_minutes : ℚ))
          (max ((config.min_check_interval_minutes : ℚ))
            (st.remaining_mb / rate / 4)) := by
      unfold compute_next_check_minutes estimated_time_to_depletion_minutes
      rw [if_neg h, if_neg h]
    exact ⟨⟨by rw [hv]; exact le_min hq (le_max_left _ _),
        by rw [hv]; exact min_le_left _ _⟩,
      fun hle => absurd hle h, fun _ => hv⟩

/-- Witness for C3 (amended) at the default configuration, 1000 MB
remaining and rate 50: the interval is clamped into [1, 60]. -/
theorem compute_next_check_minutes_range_witness :
    ((({} : AppConfig).min_check_interval_minutes : ℚ) ≤
        compute_next_check_minutes {} { remaining_mb := 1000 } 50 ∧
      compute_next_check_minutes {} { remaining_mb := 1000 } 50 ≤
        (({} : AppConfig).max_check_interval_minutes : ℚ)) ∧
    ((50 : ℚ) ≤ 0 →
      compute_next_check_minutes {} { remaining_mb := 1000 } 50 =
        (({} : AppConfig).max_check_interval_minutes : ℚ)) ∧
    ((0 : ℚ) < 50 →
      compute_next_check_minutes {} { remaining_mb := 1000 } 50 =
        min ((({} : AppConfig).max_check_interval_minutes : ℚ))
          (max ((({} : AppConfig).min_check_interval_minutes : ℚ))
            ((1000 : ℚ) / 50 / 4))) :=
  compute_next_check_minutes_range {} { remaining_mb := 1000 } 50
    (by norm_num)

/-! ## C1 and C9: idempotent manual top-up -/

theorem has_idempotency_cons_self (l : List IdemKey) (k : IdemKey) :
    has_idempotency (k :: l) k = true := by
  simp [has_idempotency, List.contains_cons]

theorem manual_add_bundle_fresh (config : AppConfig) (now : ℚ)
    (svc : ServiceState) (a : Option ℚ) (key : Option String) (k : IdemKey)
    (hk : resolveKey now (a.getD config.bundle_size_mb) key = k)
    (hfresh : has_idempotency svc.idempotency k = false) :
    manual_add_bundle config now svc a key =
      { svc with
        idempotency := k :: svc.idempotency,
        state := addBundle config now svc.state (a.getD config.bundle_size_mb),
        logs := svc.logs ++
          [.bundleAddedManually (a.getD config.bundle_size_mb)] } := by
  unfold has_idempotency at hfresh
  unfold manual_add_bundle
  dsimp only
  rw [hk]
  unfold has_idempotency register_idempotency
  rw [hfresh]
  simp

theorem manual_add_bundle_dup (config : AppConfig) (now : ℚ)
    (svc : ServiceState) (a : Option ℚ) (key : Option String) (k : IdemKey)
    (hk : resolveKey now (a.getD config.bundle_size_mb) key = k)
    (hdup : has_idempotency svc.idempotency k = true) :
    manual_add_bundle config now svc a key =
      { svc with logs := svc.logs ++ [.idempotentAddIgnored k] } := by
  unfold has_idempotency at hdup
  unfold manual_add_bundle
  dsimp only
  rw [hk]
  unfold has_idempotency
  rw [hdup]
  simp

/-- C1: with a caller-supplied (non-empty) idempotency key that is not
yet registered, the first `manual_add_bundle` call registers the key
and credits `remaining_mb` by the resolved amount; a second call with
the same key — at any later clock and with any amount argument — leaves
the whole service state unchanged except for appending exactly the
"ignored" log line (in particular no second credit). -/
theorem manual_add_bundle_idempotent (config : AppConfig)
    (svc : ServiceState) (now now2 : ℚ) (a1 a2 : Option ℚ) (s : String)
    (hs : s.isEmpty = false)
    (hfresh : has_idempotency svc.idempotency (.given s) = false) :
    (manual_add_bundle config now svc a1 (some s)).state.remaining_mb =
      svc.state.remaining_mb + a1.getD config.bundle_size_mb ∧
    (manual_add_bundle config now svc a1 (some s)).idempotency =
      .given s :: svc.idempotency ∧
    manual_add_bundle config now2 (manual_add_bundle config now svc a1 (some s))
        a2 (some s) =
      { manual_add_bundle config now svc a1 (some s) with
        logs := (manual_add_bundle config now svc a1 (some s)).logs ++
          [.idempotentAddIgnored (.given s)] } := by
  have hkey : ∀ (n : ℚ) (a : Option ℚ),
      resolveKey n (a.getD config.bundle_size_mb) (some s) = .given s := by
    intro n a
    simp [resolveKey, hs]
  have h1 := manual_add_bundle_fresh config now svc a1 (some s) (.given s)
    (hkey now a1) hfresh
  refine ⟨?_, ?_, ?_⟩
  · rw [h1]
    exact addBundle_remaining_mb config now svc.state _
  · rw [h1]
  · refine manual_add_bundle_dup config now2 _ a2 (some s) (.given s)
      (hkey now2 a2) ?_
    rw [h1]
    exact has_idempotency_cons_self _ _

/-- Witness for C1: key "k1", amount 200 against an empty ledger; the
second call leaves the state alone and appends the ignored note. -/
theorem manual_add_bundle_idempotent_witness :
    (manual_add_bundle {} 0 { state := {} } (some 200)
        (some "k1")).state.remaining_mb =
      ({} : BundleState).remaining_mb + (some (200 : ℚ)).getD
        ({} : AppConfig).bundle_size_mb ∧
    (manual_add_bundle {} 0 { state := {} } (some 200)
        (some "k1")).idempotency = [.given "k1"] ∧
    manual_add_bundle {} 5
        (manual_add_bundle {} 0 { state := {} } (some 200) (some "k1"))
        (some 200) (some "k1") =
      { manual_add_bundle {} 0 { state := {} } (some 200) (some "k1") with
        logs := (manual_add_bundle {} 0 { state := {} } (some 200)
          (some "k1")).logs ++ [.idempotentAddIgnored (.given "k1")] } :=
  manual_add_bundle_idempotent {} { state := {} } 0 5 (some 200) (some 200)
    "k1" rfl rfl

/-- C9: an omitted idempotency key is derived from the whole-second
clock reading and the amount; two calls with omitted keys, the same
explicit amount and clock readings in the same whole second resolve to
the same derived key, so the second call is a duplicate: it changes
nothing but the "ignored" log line and credits nothing. -/
theorem manual_add_bundle_derived_key (config : AppConfig)
    (svc : ServiceState) (now now2 : ℚ) (a : ℚ)
    (hsec : ⌊now2⌋ = ⌊now⌋)
    (hfresh : has_idempotency svc.idempotency (.derived ⌊now⌋ a) = false) :
    resolveKey now a none = .derived ⌊now⌋ a ∧
    (manual_add_bundle config now svc (some a) none).state.remaining_mb =
      svc.state.remaining_mb + a ∧
    manual_add_bundle config now2
        (manual_add_bundle config now svc (some a) none) (some a) none =
      { manual_add_bundle config now svc (some a) none with
        logs := (manual_add_bundle config now svc (some a) none).logs ++
          [.idempotentAddIgnored (.derived ⌊now⌋ a)] } := by
  have hkey : resolveKey now ((some a).getD config.bundle_size_mb) none =
      .derived ⌊now⌋ a := rfl
  have hkey2 : resolveKey now2 ((some a).getD config.bundle_size_mb) none =
      .derived ⌊now⌋ a := by
    unfold resolveKey
    rw [hsec]
    rfl
  have h1 := manual_add_bundle_fresh config now svc (some a) none
    (.derived ⌊now⌋ a) hkey hfresh
  refine ⟨rfl, ?_, ?_⟩
  · rw [h1]
    exact addBundle_remaining_mb config now svc.state _
  · refine manual_add_bundle_dup config now2 _ (some a) none
      (.derived ⌊now⌋ a) hkey2 ?_
    rw [h1]
    exact has_idempotency_cons_self _ _

/-- Witness for C9: clock readings 10 and 10.5 share the whole second
10; the second call with the same amount 200 is ignored. -/
theorem manual_add_bundle_derived_key_witness :
    resolveKey 10 200 none = .derived ⌊(10 : ℚ)⌋ 200 ∧
    (manual_add_bundle {} 10 { state := {} } (some 200)
        none).state.remaining_mb = ({} : BundleState).remaining_mb + 200 ∧
    manual_add_bundle {} (21/2)
        (manual_add_bundle {} 10 { state := {} } (some 200) none)
        (some 200) none =
      { manual_add_bundle {} 10 { state := {} } (some 200) none with
        logs := (manual_add_bundle {} 10 { state := {} } (some 200)
          none).logs ++
          [.idempotentAddIgnored (.derived ⌊(10 : ℚ)⌋ 200)] } :=
  manual_add_bundle_derived_key {} { state := {} } 10 (21/2) 200
    (by rw [Int.floor_eq_iff] ; norm_num) rfl

/-! ## C7: the rate estimator -/

theorem rateLoop_all_old (now ws : ℚ) (me : ℤ) :
    ∀ (events : List (ℚ × ℚ)) (total : ℚ) (earliest : Option ℚ) (count : ℤ),
      (∀ e ∈ events, now - e.1 > ws) →
      rateLoop now ws me events total earliest count = (total, earliest) := by
  intro events
  induction events with
  | nil =>
    intro total earliest count _
    rfl
  | cons e rest ih =>
    intro total earliest count h
    obtain ⟨ts, amount⟩ := e
    unfold rateLoop
    rw [if_pos (h (ts, amount) (List.mem_cons_self _ _))]
    exact ih total earliest count fun x hx => h x (List.mem_cons_of_mem _ hx)

/-- C7: for every event collection and reference clock, the estimator
returns a non-negative rate; it returns exactly 0 when no event lies
inside the window (every event is older than `window_minutes` before
`now`) and when the accumulated total of the sampled events is ≤ 0;
otherwise it returns the total divided by the minutes elapsed since the
earliest sampled event, with the elapsed time floored at the epsilon
10⁻⁶ (the sampling itself, `rateLoop`, stops after `max_events`
qualifying events). -/
theorem rate_mb_per_minute_spec (est : ConsumptionEstimator) (now : ℚ)
    (events : List (ℚ × ℚ)) :
    0 ≤ rate_mb_per_minute est now events ∧
    ((∀ e ∈ events, now - e.1 > (est.window_minutes : ℚ) * 60) →
      rate_mb_per_minute est now events = 0) ∧
    ((rateLoop now ((est.window_minutes : ℚ) * 60) est.max_events events
        0 none 0).1 ≤ 0 →
      rate_mb_per_minute est now events = 0) ∧
    (∀ (total e : ℚ),
      rateLoop now ((est.window_minutes : ℚ) * 60) est.max_events events
        0 none 0 = (total, some e) →
      0 < total →
      rate_mb_per_minute est now events =
        total / max ((now - e) / 60) (1 / 1000000)) := by
  refine ⟨?_, ?_, ?_, ?_⟩
  · unfold rate_mb_per_minute
    dsimp only
    split
    · exact le_refl 0
    · split
      · exact le_refl 0
      · next htot =>
        refine div_nonneg (le_of_lt (lt_of_not_le htot)) ?_
        exact le_trans (by norm_num) (le_max_right _ _)
  · intro h
    unfold rate_mb_per_minute
    dsimp only
    rw [rateLoop_all_old now _ _ events 0 none 0 h]
  · intro htot
    unfold rate_mb_per_minute
    dsimp only
    split
    · rfl
    · rw [if_pos htot]
  · intro total e hpair hpos
    unfold rate_mb_per_minute
    dsimp only
    rw [hpair]
    dsimp only
    rw [if_neg (not_le.2 hpos)]

/-- Witness for C7 on the empty event list: the rate is 0. -/
theorem rate_mb_per_minute_spec_witness :
    rate_mb_per_minute {} 10000 [] = 0 :=
  (rate_mb_per_minute_spec {} 10000 []).2.1 (by simp)

/-! ## C4 and C5: renewal retry -/

theorem renew_with_real_api_fail (config : AppConfig) (now : ℚ)
    (st : BundleState) (o : AttemptOutcome) (h : o ≠ .success) :
    ∃ msg, renew_with_real_api config now st o = (false, st, [msg]) := by
  cases o
  case success => exact absurd rfl h
  all_goals exact ⟨_, rfl⟩

theorem renewLoop_succ (config : AppConfig) (now : ℚ)
    (outcomes : ℕ → AttemptOutcome) (attempt remaining : ℕ)
    (st : BundleState) (logs : List LogMsg) (sleeps : List ℕ) :
    renewLoop config now outcomes attempt (remaining + 1) st logs sleeps =
      match renew_with_real_api config now st (outcomes attempt) with
      | (true, st2, alogs) =>
        { state := st2, attempts := attempt + 1, sleeps := sleeps,
          logs := logs ++ alogs }
      | (false, st2, alogs) =>
        renewLoop config now outcomes (attempt + 1) remaining st2
          (logs ++ alogs)
          (if attempt < retries - 1 then sleeps ++ [backoff ^ attempt]
            else sleeps) := rfl

/-- C5: when every attempt fails, `_renew_with_retry` performs exactly
3 provider attempts, sleeps 1 second after the first and 2 seconds
after the second failed attempt, logs the terminal error, and leaves
the bundle state (in particular `remaining_mb`) unchanged; the embedded
loop is a total function, so it returns normally to its caller. -/
theorem renew_with_retry_all_fail (config : AppConfig) (now : ℚ)
    (st : BundleState) (outcomes : ℕ → AttemptOutcome)
    (h0 : outcomes 0 ≠ .success) (h1 : outcomes 1 ≠ .success)
    (h2 : outcomes 2 ≠ .success) :
    (renew_with_retry config now outcomes st).attempts = 3 ∧
    (renew_with_retry config now outcomes st).sleeps = [1, 2] ∧
    (renew_with_retry config now outcomes st).state = st ∧
    LogMsg.allRenewalAttemptsFailed ∈
      (renew_with_retry config now outcomes st).logs := by
  obtain ⟨m0, e0⟩ := renew_with_real_api_fail config now st _ h0
  obtain ⟨m1, e1⟩ := renew_with_real_api_fail config now st _ h1
  obtain ⟨m2, e2⟩ := renew_with_real_api_fail config now st _ h2
  have hr : renew_with_retry config now outcomes st =
      { state := st, attempts := 3, sleeps := [1, 2],
        logs := [m0, m1, m2, .allRenewalAttemptsFailed] } := by
    unfold renew_with_retry
    rw [show retries = 2 + 1 from rfl, renewLoop_succ, e0]
    dsimp only
    rw [renewLoop_succ, e1]
    dsimp only
    rw [renewLoop_succ, e2]
    dsimp only
    norm_num [renewLoop, retries, backoff]
  rw [hr]
  simp

/-- Witness for C5: three `ProviderError`-style attempt failures. -/
theorem renew_with_retry_all_fail_witness :
    (renew_with_retry {} 0 (fun _ => .apiError) {}).attempts = 3 ∧
    (renew_with_retry {} 0 (fun _ => .apiError) {}).sleeps = [1, 2] ∧
    (renew_with_retry {} 0 (fun _ => .apiError) {}).state = {} ∧
    LogMsg.allRenewalAttemptsFailed ∈
      (renew_with_retry {} 0 (fun _ => .apiError) {}).logs :=
  renew_with_retry_all_fail {} 0 {} (fun _ => .apiError)
    (by decide) (by decide) (by decide)

/-- C4 counterexample: with authentication errors on every attempt, the
retry loop still performs 3 provider attempts with the backoff sleeps —
it does not abandon the cycle after the first `AuthError`, contrary to
the claim that an auth failure is not retried inside the attempt loop. -/
theorem renew_auth_retry_counterexample :
    renew_with_retry {} 0 (fun _ => .authError) {} =
      { state := {}, attempts := 3, sleeps := [1, 2],
        logs := [.apiAuthFailed, .apiAuthFailed, .apiAuthFailed,
          .allRenewalAttemptsFailed] } ∧
    (renew_with_retry {} 0 (fun _ => .authError) {}).attempts ≠ 1 := by
  exact ⟨rfl, by decide⟩

/-- C4 (amended): an `AuthError` from the provider is caught inside the
attempt, logged, and reported as a failed attempt — but it is retried
like any other failure: with an auth error on every attempt the loop
performs the full budget of 3 attempts (sleeping 1s then 2s), leaves
the state unchanged, and logs the terminal error; only the next
scheduled cycle tries again. -/
theorem renew_auth_error_retried (config : AppConfig) (now : ℚ)
    (st : BundleState) (outcomes : ℕ → AttemptOutcome)
    (hauth : ∀ i, outcomes i = .authError) :
    renew_with_retry config now outcomes st =
      { state := st, attempts := 3, sleeps := [1, 2],
        logs := [.apiAuthFailed, .apiAuthFailed, .apiAuthFailed,
          .allRenewalAttemptsFailed] } := by
  have e : ∀ i, renew_with_real_api config now st (outcomes i) =
      (false, st, [.apiAuthFailed]) := by
    intro i
    rw [hauth i]
    rfl
  unfold renew_with_retry
  rw [show retries = 2 + 1 from rfl, renewLoop_succ, e 0]
  dsimp only
  rw [renewLoop_succ, e 1]
  dsimp only
  rw [renewLoop_succ, e 2]
  dsimp only
  norm_num [renewLoop, retries, backoff]

/-- Witness for C4 (amended) at a concrete all-auth-error run. -/
theorem renew_auth_error_retried_witness :
    renew_with_retry {} 5 (fun _ => .authError)
        { remaining_mb := 50 } =
      { state := { remaining_mb := 50 }, attempts := 3, sleeps := [1, 2],
        logs := [.apiAuthFailed, .apiAuthFailed, .apiAuthFailed,
          .allRenewalAttemptsFailed] } :=
  renew_auth_error_retried {} 5 { remaining_mb := 50 }
    (fun _ => .authError) (fun _ => rfl)

/-! ## C6: the daily reset -/

/-- C6: for a state whose `next_reset_ts` is a midnight boundary
`k·86400` (k ≥ 1, hence a truthy timestamp, as `_ensure_reset_schedule`
and previous resets maintain), the reset never touches `remaining_mb`,
`total_used_mb` or `expiry_ts`; when the wall clock has crossed the
boundary it zeroes `used_today_mb` and advances `next_reset_ts` to the
midnight after `now` — exactly one day per midnight boundary crossed
(the crossing count `⌊now/86400⌋ - k + 1` is at least 1, so the advance
is strict); when the boundary has not been crossed, the state is
returned completely unchanged. -/
theorem daily_reset_spec (st : BundleState) (now : ℚ) (k : ℤ)
    (hr : st.next_reset_ts = some ((k : ℚ) * 86400)) (hk : 1 ≤ k) :
    ((applyDailyReset now st).remaining_mb = st.remaining_mb ∧
      (applyDailyReset now st).total_used_mb = st.total_used_mb ∧
      (applyDailyReset now st).expiry_ts = st.expiry_ts) ∧
    ((k : ℚ) * 86400 ≤ now →
      (applyDailyReset now st).used_today_mb = 0 ∧
      (applyDailyReset now st).next_reset_ts =
        some ((k : ℚ) * 86400 + ((⌊now / 86400⌋ - k + 1 : ℤ) : ℚ) * 86400) ∧
      1 ≤ ⌊now / 86400⌋ - k + 1) ∧
    (now < (k : ℚ) * 86400 → applyDailyReset now st = st) := by
  refine ⟨⟨applyDailyReset_remaining_mb now st,
    applyDailyReset_total_used_mb now st,
    applyDailyReset_expiry_ts now st⟩, ?_, ?_⟩
  · intro hge
    have hkq : (0 : ℚ) < (k : ℚ) := by
      exact_mod_cast lt_of_lt_of_le Int.zero_lt_one hk
    have hk0 : ((k : ℚ) * 86400) ≠ 0 :=
      ne_of_gt (mul_pos hkq (by norm_num))
    have hfires : dailyResetFires now st = true := by
      simp [dailyResetFires, hr, tsTruthy, hk0, hge]
    have hfloor : k ≤ ⌊now / 86400⌋ := by
      refine Int.le_floor.2 ?_
      rw [le_div_iff₀ (by norm_num : (0 : ℚ) < 86400)]
      exact hge
    refine ⟨?_, ?_, by omega⟩
    · unfold applyDailyReset
      rw [hfires]
      rfl
    · unfold applyDailyReset
      rw [hfires]
      show some (next_midnight_ts now) = _
      unfold next_midnight_ts
      congr 1
      push_cast
      ring
  · intro hlt
    have hfires : dailyResetFires now st = false := by
      simp [dailyResetFires, hr, tsTruthy, not_le.2 hlt]
    unfold applyDailyReset
    rw [hfires]
    rfl

/-- Witness for C6: boundary at 86400 (k = 1), clock at 100000 — the
crossing fires, `used_today_mb` becomes 0 and `remaining_mb` is kept. -/
theorem daily_reset_spec_witness :
    (applyDailyReset 100000
      { remaining_mb := 7, used_today_mb := 5, total_used_mb := 9,
        expiry_ts := some 3,
        next_reset_ts := some 86400 }).used_today_mb = 0 ∧
    (applyDailyReset 100000
      { remaining_mb := 7, used_today_mb := 5, total_used_mb := 9,
        expiry_ts := some 3,
        next_reset_ts := some 86400 }).remaining_mb = 7 := by
  have h := daily_reset_spec
    { remaining_mb := 7, used_today_mb := 5, total_used_mb := 9,
      expiry_ts := some 3, next_reset_ts := some 86400 }
    100000 1 (by norm_num) (by norm_num)
  exact ⟨(h.2.1 (by norm_num)).1, h.1.1⟩

/-! ## C10: the scheduler stop signal -/

theorem schedSteps_stopped (ops : List SchedOp) :
    ∀ (s : SchedState), s.stopSet = true →
      (schedSteps s ops).stopSet = true ∧
      (schedSteps s ops).cyclesRun = s.cyclesRun := by
  induction ops with
  | nil =>
    intro s h
    exact ⟨h, rfl⟩
  | cons op rest ih =>
    intro s h
    have hstep : (schedStep s op).stopSet = true ∧
        (schedStep s op).cyclesRun = s.cyclesRun := by
      cases op with
      | start => by_cases ht : s.threadAlive <;> simp [schedStep, ht, h]
      | stop => simp [schedStep, h]
      | loopIter => simp [schedStep, h]
    have hrest := ih (schedStep s op) hstep.1
    exact ⟨hrest.1, hrest.2.trans hstep.2⟩

/-- C10: `stop()` sets the stop event and nothing ever clears it: after
a `stop`, under every further sequence of `start`/`stop`/loop-guard
events the stop signal remains set and the count of executed loop-body
iterations never increases — a restarted loop observes the signal at
its guard and exits without running the body. -/
theorem scheduler_stop_is_permanent (s : SchedState) (ops : List SchedOp) :
    (schedSteps (schedStep s .stop) ops).stopSet = true ∧
    (schedSteps (schedStep s .stop) ops).cyclesRun = s.cyclesRun := by
  have h := schedSteps_stopped ops (schedStep s .stop) rfl
  exact ⟨h.1, h.2⟩

/-! ## C8: non-negativity of `remaining_mb` -/

/-- C8 counterexample: nothing validates the manual top-up amount, so a
`manual_add_bundle` call with amount −500 (reachable through the
`/api/add-bundle` endpoint, which passes the payload through unchecked)
drives `remaining_mb` from 100 to −400: the invariant is not preserved
by every mutating operation as claimed. -/
theorem remaining_nonneg_counterexample :
    (0 : ℚ) ≤
      ({ state := { remaining_mb := 100 } } : ServiceState).state.remaining_mb ∧
    (manual_add_bundle {} 0 { state := { remaining_mb := 100 } }
        (some (-500)) (some "k")).state.remaining_mb = -400 ∧
    ¬ (0 : ℚ) ≤
      (manual_add_bundle {} 0 { state := { remaining_mb := 100 } }
        (some (-500)) (some "k")).state.remaining_mb := by
  have hv : (manual_add_bundle {} 0 { state := { remaining_mb := 100 } }
      (some (-500)) (some "k")).state.remaining_mb = -400 := by
    rw [manual_add_bundle_fresh {} 0 { state := { remaining_mb := 100 } }
      (some (-500)) (some "k") (.given "k") rfl rfl]
    rw [addBundle_remaining_mb]
    norm_num
  refine ⟨by norm_num, hv, ?_⟩
  rw [hv]
  norm_num

theorem renewLoop_remaining_nonneg (config : AppConfig) (now : ℚ)
    (outcomes : ℕ → AttemptOutcome) (hb : 0 ≤ config.bundle_size_mb) :
    ∀ (remaining attempt : ℕ) (st : BundleState) (logs : List LogMsg)
      (sleeps : List ℕ), 0 ≤ st.remaining_mb →
      0 ≤ (renewLoop config now outcomes attempt remaining st logs
        sleeps).state.remaining_mb := by
  intro remaining
  induction remaining with
  | zero =>
    intro attempt st logs sleeps h
    exact h
  | succ n ih =>
    intro attempt st logs sleeps h
    rw [renewLoop_succ]
    cases houtcome : outcomes attempt
    all_goals simp only [renew_with_real_api]
    case success =>
      rw [addBundle_remaining_mb]
      exact add_nonneg h hb
    all_goals exact ih _ st _ _ h

theorem renew_with_retry_remaining_nonneg (config : AppConfig) (now : ℚ)
    (outcomes : ℕ → AttemptOutcome) (st : BundleState)
    (hb : 0 ≤ config.bundle_size_mb) (h : 0 ≤ st.remaining_mb) :
    0 ≤ (renew_with_retry config now outcomes st).state.remaining_mb := by
  unfold renew_with_retry
  exact renewLoop_remaining_nonneg config now outcomes hb retries 0 st [] [] h

theorem run_check_cycle_remaining_nonneg (config : AppConfig) (now : ℚ)
    (outcomes : ℕ → AttemptOutcome) (svc : ServiceState)
    (hb : 0 ≤ config.bundle_size_mb) (h : 0 ≤ svc.state.remaining_mb) :
    0 ≤ (run_check_cycle config now outcomes svc).svc.state.remaining_mb := by
  have hreset : 0 ≤ (applyDailyReset now svc.state).remaining_mb := by
    rw [applyDailyReset_remaining_mb]
    exact h
  unfold run_check_cycle
  dsimp only
  split
  · dsimp only
    exact renew_with_retry_remaining_nonneg config now outcomes _ hb hreset
  · dsimp only
    exact hreset

/-- C8 (amended): `remaining_mb ≥ 0` is preserved unconditionally by
`simulate_usage` (the decrement floors at 0) and by the daily reset
(which never touches it), and by the crediting operations provided the
credited or synced quantity is itself non-negative — which the code
never validates: `manual_add_bundle` needs a non-negative resolved
amount, the renewal path (`_renew_with_retry` and hence
`run_check_cycle`) a non-negative configured `bundle_size_mb`, and the
scheduler's resync overwrite a non-negative provider-reported balance. -/
theorem remaining_nonneg_preserved (config : AppConfig)
    (svc : ServiceState) (now : ℚ) (amount_mb : ℚ) (ts : Option ℚ)
    (amt : Option ℚ) (key : Option String)
    (outcomes : ℕ → AttemptOutcome) (synced : ℚ)
    (h : 0 ≤ svc.state.remaining_mb) :
    0 ≤ (simulate_usage now svc amount_mb ts).state.remaining_mb ∧
    0 ≤ (applyDailyReset now svc.state).remaining_mb ∧
    (0 ≤ amt.getD config.bundle_size_mb →
      0 ≤ (manual_add_bundle config now svc amt key).state.remaining_mb) ∧
    (0 ≤ config.bundle_size_mb →
      0 ≤ (renew_with_retry config now outcomes
        svc.state).state.remaining_mb) ∧
    (0 ≤ config.bundle_size_mb →
      0 ≤ (run_check_cycle config now outcomes
        svc).svc.state.remaining_mb) ∧
    (0 ≤ synced →
      0 ≤ (sync_remaining_from_api svc synced).state.remaining_mb) := by
  refine ⟨?_, ?_, ?_, ?_, ?_, ?_⟩
  · unfold simulate_usage
    dsimp only
    exact le_max_right _ 0
  · rw [applyDailyReset_remaining_mb]
    exact h
  · intro ha
    unfold manual_add_bundle
    dsimp only
    split
    · exact h
    · dsimp only
      rw [addBundle_remaining_mb]
      exact add_nonneg h ha
  · intro hb
    exact renew_with_retry_remaining_nonneg config now outcomes _ hb h
  · intro hb
    exact run_check_cycle_remaining_nonneg config now outcomes svc hb h
  · intro hs
    exact hs

/-- Witness for C8 (amended): the default config and state, with the
full set of hypotheses discharged at non-negative inputs. -/
theorem remaining_nonneg_preserved_witness :
    0 ≤ (simulate_usage 0 { state := {} } 1500 none).state.remaining_mb ∧
    (0 ≤ (manual_add_bundle {} 0 { state := {} } (some 200)
      (some "k")).state.remaining_mb) ∧
    (0 ≤ (run_check_cycle {} 0 (fun _ => .success)
      { state := {} }).svc.state.remaining_mb) := by
  have hw := remaining_nonneg_preserved {} { state := {} } 0 1500 none
    (some 200) (some "k") (fun _ => .success) 0 (by norm_num)
  exact ⟨hw.1, hw.2.2.1 (by norm_num), hw.2.2.2.2.1 (by norm_num)⟩

end Odido
